import Mathlib

/-!
Verification of the Flame_Components core (flame_components_arcgisRaster.py).

A raster is embedded as a function from an index type of cells to the reals
(`Grid`); scalar inputs correspond to `Grid Unit`.  The arcpy map-algebra
primitive `Con(pred, a, b)` becomes the elementwise conditional `Con` below,
and `Ln`, `SquareRoot`, `Power`, `Sin`, `ASin`, `ACos`, `ATan` become
`Real.log`, `Real.sqrt`, `Real.rpow`, `Real.sin`, `Real.arcsin`,
`Real.arccos`, `Real.arctan`.  A Python `raise` becomes an `Except.error`
carrying the error kind that the specification assigns to the raised message.
-/

open Classical

namespace Flame

/-- A raster grid: one real value per spatial cell. -/
abbrev Grid (ι : Type) : Type := ι → ℝ

/-- Error kinds of the core, as classified by the specification:
`invalidModel` for the messages "... - Model choice is invalid",
`missingParameter` for "Unable to calculate Butler flame tilt - Did not pass
at least one of the required input parameters", and `invalidUnit` for the
slope-unit messages ("Invalid slope units provided" / "Slope tilt"). -/
inductive FlameError : Type
  | invalidModel : FlameError
  | missingParameter : FlameError
  | invalidUnit : FlameError
deriving DecidableEq

/-- arcpy `Con`: select the first operand where the predicate holds and the
second elsewhere, cell by cell. -/
noncomputable def Con {ι : Type} (pred : ι → Prop) (t f : Grid ι) : Grid ι :=
  fun i => if pred i then t i else f i

/-- Source `getDegrees`: `in_data * 180 / np.pi`, applied per cell. -/
noncomputable def getDegrees (x : ℝ) : ℝ := x * 180 / Real.pi

/-- Source `getRadians`: `in_data * np.pi / 180`, applied per cell. -/
noncomputable def getRadians (x : ℝ) : ℝ := x * Real.pi / 180

/-- The conversion applied to windspeed at the top of `getMidFlameWS`:
divide by `3.6 * 1.15` for `SI`, by `2.23694` for `IMP`, and leave the value
untouched for any other units string. -/
noncomputable def wsConvert (units : String) (w : ℝ) : ℝ :=
  if units = "SI" then w / (3.6 * 1.15)
  else if units = "IMP" then w / 2.23694
  else w

/-- Lines 54-64 of the source (`getMidFlameWS` after unit conversion):
crown ratio from the incoming canopy height, `f = crown_ratio * cc / 300`,
replacement of zero canopy heights by `0.5 * 3.28084`, then the
Albini-Baughman wind reduction. -/
noncomputable def windReduction {ι : Type}
    (windspeed canopy_cover canopy_ht canopy_baseht : Grid ι) : Grid ι :=
  let crown_ratio : Grid ι :=
    Con (fun i => canopy_ht i = 0) (fun _ => 0)
      (fun i => (canopy_ht i - canopy_baseht i) / canopy_ht i)
  let f : Grid ι := fun i => crown_ratio i * canopy_cover i / 300
  let canopy_ht2 : Grid ι :=
    Con (fun i => canopy_ht i = 0) (fun _ => 0.5 * 3.28084) canopy_ht
  Con (fun i => f i ≤ 5)
    (fun i => windspeed i * 1.83 /
      Real.log ((20 + 0.36 * canopy_ht2 i) / (0.13 * canopy_ht2 i)))
    (fun i => windspeed i * 0.555 /
      (Real.sqrt (f i * canopy_ht2 i) *
        Real.log ((20 + 0.36 * canopy_ht2 i) / (0.13 * canopy_ht2 i))))

/-- Source `getMidFlameWS`: unit conversion (`SI` converts windspeed and both
canopy heights, `IMP` converts windspeed only, anything else converts
nothing), followed by the wind-reduction computation. -/
noncomputable def getMidFlameWS {ι : Type}
    (windspeed canopy_cover canopy_ht canopy_baseht : Grid ι)
    (units : String) : Grid ι :=
  if units = "SI" then
    windReduction (fun i => windspeed i / (3.6 * 1.15)) canopy_cover
      (fun i => canopy_ht i * 3.28084) (fun i => canopy_baseht i * 3.28084)
  else if units = "IMP" then
    windReduction (fun i => windspeed i / 2.23694) canopy_cover
      canopy_ht canopy_baseht
  else
    windReduction windspeed canopy_cover canopy_ht canopy_baseht

/-- The flame-length model registry (`model_dict` in the source), in source
order, each value the tuple of published coefficients. -/
noncomputable def model_dict : List (String × List ℝ) :=
  [("Fons_NOWIND", [0.024018, 2/3]),
   ("Thomas_NOWIND", [0.026700, 2/3]),
   ("Yuana_NOWIND", [0.034000, 2/3]),
   ("Barbon_iNOWIND", [0.062000, 0.5336]),
   ("Nelson_BACK", [0.027973, 2/3]),
   ("Fernandes_BACK", [0.029000, 0.7240]),
   ("Clark_BACK", [0.001600, 1.7450]),
   ("Vega_BACK", [0.087000, 0.4930]),
   ("Byram_HEAD", [0.0775, 0.4600]),
   ("Anderson1_HEAD", [0.013876, 0.6510]),
   ("Anderson2_HEAD", [0.008800, 0.6700]),
   ("Newman_HEAD", [0.05770, 0.5000]),
   ("Sneewujagt_HEAD", [0.037680, 0.5000]),
   ("Nelson1_HEAD", [0.044230, 0.5000]),
   ("Clark_HEAD", [0.000722, 0.9934]),
   ("Nelson2_HEAD", [0.047500, 0.4930]),
   ("VanWilgen_HEAD", [0.046000, 0.4128]),
   ("Burrows_HEAD", [0.040480, 0.5740]),
   ("MarsdenSmedley_HEAD", [0.148, 0.403]),
   ("Weise1_HEAD", [0.016000, 0.7000]),
   ("Catchpole_HEAD", [0.032500, 0.5600]),
   ("Fernandes1_HEAD", [0.051600, 0.4530]),
   ("Butler_HEAD", [0.017500, 2/3]),
   ("Fernandes_HEAD", [0.045000, 0.5430]),
   ("Nelson3_HEAD", [0.014200, 2/3]),
   ("Nelson4_HEAD", [0.015500, 2/3]),
   ("Weise2_HEAD", [0.2000000, 0.3400]),
   ("Davies_HEAD", [0.220000, 0.2900]),
   ("Finney_HEAD", [0.01051, 0.774, 0.161])]

/-- Source `getFlameLength`.  The `flame_depth` parameter defaults to `None`
in the source and is only read by the `Finney_HEAD` branch; every claim in
scope supplies it, so it is embedded as a plain grid.  The result is either
the raw coefficient tuple (when `params_only` is set) or the flame-length
grid. -/
noncomputable def getFlameLength {ι : Type} (model : String)
    (fire_intensity : Grid ι) (flame_depth : Grid ι)
    (params_only : Bool) : Except FlameError (List ℝ ⊕ Grid ι) :=
  match model_dict.lookup model with
  | none => .error FlameError.invalidModel
  | some model_params =>
    if params_only then .ok (.inl model_params)
    else if model = "Finney_HEAD" then
      .ok (.inr (fun i =>
        model_params.getD 0 0 * fire_intensity i ^ model_params.getD 1 0 /
          flame_depth i ^ model_params.getD 2 0))
    else
      .ok (.inr (fun i =>
        model_params.getD 0 0 * fire_intensity i ^ model_params.getD 1 0))

/-- Slope conversion block shared verbatim by `getFlameHeight` (model
`Finney`) and `getFlameTilt` (model `Finney`): `ATan(slope_angle / 100)` for
percent, `getRadians(slope_angle)` for degrees, otherwise a raised error
(classified `InvalidUnitError` by the specification).  The `slope_units`
parameter defaults to `None` in the source, hence the `Option`. -/
noncomputable def slopeToRad {ι : Type} (slope_units : Option String)
    (slope_angle : Grid ι) : Except FlameError (Grid ι) :=
  if slope_units = some "percent" then
    .ok (fun i => Real.arctan (slope_angle i / 100))
  else if slope_units = some "degrees" then
    .ok (fun i => getRadians (slope_angle i))
  else .error FlameError.invalidUnit

/-- Source `getFlameHeight`.  Parameters that default to `None` in the source
but are read unconditionally by the branch that uses them are embedded as
plain grids; `slope_units` keeps its `Option` since its absence is what the
invalid-unit error detects. -/
noncomputable def getFlameHeight {ι : Type} (model : String)
    (flame_length : Grid ι)
    (fire_type fire_intensity midflame_ws : Grid ι)
    (flame_tilt slope_angle : Grid ι)
    (slope_units : Option String) : Except FlameError (Grid ι) :=
  if model = "Nelson" then
    let a : Grid ι :=
      Con (fun i => fire_type i = 1 ∨ fire_type i = 2) (fun _ => 1 / 360)
        (Con (fun i => fire_type i = 3) (fun _ => 0.0175) (fun _ => 0))
    let height : Grid ι :=
      Con (fun i => midflame_ws i = 0) flame_length
        (fun i => a i * fire_intensity i / midflame_ws i)
    .ok (Con (fun i => height i > flame_length i) flame_length height)
  else if model = "Finney" then
    match slopeToRad slope_units slope_angle with
    | .error e => .error e
    | .ok slope_rad =>
      let tilt_h : Grid ι := fun i => Real.pi / 2 - getRadians (flame_tilt i)
      .ok (Con (fun i => slope_angle i ≤ 1)
        (fun i => flame_length i * Real.sin (tilt_h i))
        (fun i => flame_length i * Real.sin (tilt_h i - slope_rad i) /
          Real.sin (getRadians 90 - slope_rad i)))
  else .error FlameError.invalidModel

/-- The final line of `getFlameTilt`: where `tilt_v >= 0` return
`getDegrees(tilt_v)`, otherwise `0`. -/
noncomputable def clampDeg {ι : Type} (tilt_v : Grid ι) : Grid ι :=
  Con (fun i => tilt_v i ≥ 0) (fun i => getDegrees (tilt_v i)) (fun _ => 0)

/-- Vertical-relative tilt of the `Standard` sub-model:
`ACos(flame_height / flame_length)`. -/
noncomputable def tiltV_Standard {ι : Type}
    (flame_length flame_height : Grid ι) : Grid ι :=
  fun i => Real.arccos (flame_height i / flame_length i)

/-- Vertical-relative tilt of the `Finney` sub-model in the branch where
flame height and flame length differ (lines 242-244 of the source). -/
noncomputable def tiltV_Finney {ι : Type}
    (flame_length flame_height slope_rad : Grid ι) : Grid ι :=
  fun i => Real.pi / 2 -
    (Real.arcsin (getRadians (flame_height i *
        getDegrees (Real.sin (getRadians 90 - slope_rad i)) / flame_length i)) +
      slope_rad i)

/-- Vertical-relative tilt of the `Butler` sub-model, taking the windspeed
already converted to metres per second. -/
noncomputable def tiltV_Butler {ι : Type}
    (windspeed canopy_ht : Grid ι) : Grid ι :=
  let uc : Grid ι :=
    fun i => windspeed i / (3.6 * (1 + Real.log (1 + 28 / canopy_ht i)))
  let g : ℝ := 9.81
  fun i => Real.arctan (Real.sqrt ((3 * uc i ^ (3:ℝ)) / (2 * g * 10)))

/-- The windspeed conversion at the top of the `Butler` branch of
`getFlameTilt`: divide by 3.6 for `kph`, by 2.23694 for `mph`, otherwise
leave the value as given. -/
noncomputable def butlerWsConvert (windspeed_units : String) (w : ℝ) : ℝ :=
  if windspeed_units = "kph" then w / 3.6
  else if windspeed_units = "mph" then w / 2.23694
  else w

/-- The model dispatch of `getFlameTilt` computing the vertical-relative
tilt `tilt_v` (lines 226-269 of the source).  `windspeed`,
`windspeed_units` and `canopy_ht` keep their `None` defaults as `Option`s
because the `Butler` branch tests them for absence; the remaining defaulted
parameters are read unconditionally by the branches that use them and are
embedded as plain grids.  The whole-grid comparison
`flame_height == flame_length` of the `Finney` branch becomes extensional
equality of the two grids. -/
noncomputable def tiltCore {ι : Type} (model : String)
    (flame_length flame_height : Grid ι)
    (slope_angle : Grid ι) (slope_units : Option String)
    (windspeed : Option (Grid ι)) (windspeed_units : Option String)
    (canopy_ht : Option (Grid ι)) : Except FlameError (Grid ι) :=
  if model = "Standard" then
    .ok (tiltV_Standard flame_length flame_height)
  else if model = "Finney" then
    match slopeToRad slope_units slope_angle with
    | .error e => .error e
    | .ok slope_rad =>
      if flame_height = flame_length then .ok (fun _ => 0)
      else .ok (tiltV_Finney flame_length flame_height slope_rad)
  else if model = "Butler" then
    match windspeed, windspeed_units, canopy_ht with
    | some ws, some ws_units, some c_ht =>
      .ok (tiltV_Butler (fun i => butlerWsConvert ws_units (ws i)) c_ht)
    | _, _, _ => .error FlameError.missingParameter
  else .error FlameError.invalidModel

/-- Source `getFlameTilt`: the model dispatch computing `tilt_v`, followed
by the final clamped conversion to degrees. -/
noncomputable def getFlameTilt {ι : Type} (model : String)
    (flame_length flame_height : Grid ι)
    (slope_angle : Grid ι) (slope_units : Option String)
    (windspeed : Option (Grid ι)) (windspeed_units : Option String)
    (canopy_ht : Option (Grid ι)) : Except FlameError (Grid ι) :=
  match tiltCore model flame_length flame_height slope_angle slope_units
      windspeed windspeed_units canopy_ht with
  | .error e => .error e
  | .ok tilt_v => .ok (clampDeg tilt_v)

/-- Source `getFlameResidenceTime`. -/
noncomputable def getFlameResidenceTime {ι : Type}
    (ros fuel_consumption midflame_ws : Grid ι) (units : String) : Grid ι :=
  let res_time : Grid ι := fun i =>
    (0.39 * fuel_consumption i ^ (0.25:ℝ) * midflame_ws i ^ (1.51:ℝ)) /
      (ros i / 60)
  if units = "min" then fun i => res_time i / 60 else res_time

/-- Source `getFlameDepth`. -/
noncomputable def getFlameDepth {ι : Type} (ros res_time : Grid ι) : Grid ι :=
  fun i => ros i * res_time i

/-- Broadcast a scalar to every cell of a grid. -/
def constGrid {ι : Type} (v : ℝ) : Grid ι := fun _ => v

lemma Con_apply {ι : Type} (pred : ι → Prop) (t f : Grid ι) (i : ι) :
    Con pred t f i = if pred i then t i else f i := rfl

lemma clampDeg_apply {ι : Type} (tilt_v : Grid ι) (i : ι) :
    clampDeg tilt_v i = if tilt_v i ≥ 0 then getDegrees (tilt_v i) else 0 := rfl

lemma getDegrees_nonneg {x : ℝ} (hx : 0 ≤ x) : 0 ≤ getDegrees x := by
  unfold getDegrees
  exact div_nonneg (mul_nonneg hx (by norm_num)) Real.pi_pos.le

lemma clampDeg_nonneg {ι : Type} (tilt_v : Grid ι) (i : ι) :
    0 ≤ clampDeg tilt_v i := by
  rw [clampDeg_apply]
  split_ifs with h
  · exact getDegrees_nonneg h
  · exact le_refl 0

lemma slopeToRad_invalid {ι : Type} (su : Option String) (sa : Grid ι)
    (h1 : su ≠ some "percent") (h2 : su ≠ some "degrees") :
    slopeToRad su sa = .error FlameError.invalidUnit := by
  simp only [slopeToRad, if_neg h1, if_neg h2]

lemma slopeToRad_error {ι : Type} {su : Option String} {sa : Grid ι}
    {e : FlameError} (h : slopeToRad su sa = .error e) :
    e = FlameError.invalidUnit := by
  unfold slopeToRad at h
  split_ifs at h
  simp_all

/-- Claim C1 counterexample: the flame-length registry of the source holds
29 keys, not 27 as the claim states. -/
theorem claim_C1_counterexample :
    (model_dict.map Prod.fst).length = 29 ∧
      (model_dict.map Prod.fst).length ≠ 27 := by
  constructor
  · rfl
  · decide

/-- Claim C1 (amended: the registry has 29 keys, not 27): with
`params_only` false, `Finney_HEAD` computes
`0.01051 * intensity^0.774 / flame_depth^0.161` elementwise, every other
registered model with coefficients `(a, b)` computes `a * intensity^b`
elementwise, and in particular `Byram_HEAD` at intensity 100 gives
`0.0775 * 100^0.46` and `Finney_HEAD` at intensity 100, flame depth 2 gives
`0.01051 * 100^0.774 / 2^0.161`. -/
theorem claim_C1 {ι : Type} (fire_intensity flame_depth : Grid ι) :
    (model_dict.map Prod.fst).length = 29 ∧
    (∀ (model : String) (a b : ℝ), model_dict.lookup model = some [a, b] →
      model ≠ "Finney_HEAD" →
      getFlameLength model fire_intensity flame_depth false =
        .ok (.inr fun i => a * fire_intensity i ^ b)) ∧
    (getFlameLength "Finney_HEAD" fire_intensity flame_depth false =
      .ok (.inr fun i => 0.01051 * fire_intensity i ^ (0.774:ℝ) /
        flame_depth i ^ (0.161:ℝ))) ∧
    (getFlameLength "Byram_HEAD" (constGrid 100) flame_depth false =
      .ok (.inr fun _ => 0.0775 * (100:ℝ) ^ (0.46:ℝ))) ∧
    (getFlameLength (ι := ι) "Finney_HEAD" (constGrid 100) (constGrid 2) false =
      .ok (.inr fun _ => 0.01051 * (100:ℝ) ^ (0.774:ℝ) / (2:ℝ) ^ (0.161:ℝ))) := by
  refine ⟨rfl, ?_, rfl, ?_, rfl⟩
  · intro model a b hl hne
    simp only [getFlameLength, hl, Bool.false_eq_true, if_false, if_neg hne]
    rfl
  · have e46 : (0.4600:ℝ) = 0.46 := by norm_num
    calc getFlameLength "Byram_HEAD" (constGrid 100) flame_depth false
        = .ok (.inr fun _ => 0.0775 * (100:ℝ) ^ (0.4600:ℝ)) := rfl
      _ = .ok (.inr fun _ => 0.0775 * (100:ℝ) ^ (0.46:ℝ)) := by rw [e46]

/-- Claim C1 witness: the general power-law conjunct applied to the
`Byram_HEAD` entry. -/
theorem claim_C1_witness :
    getFlameLength (ι := Unit) "Byram_HEAD" (constGrid 100) (constGrid 1) false =
      .ok (.inr fun _ => 0.0775 * (100:ℝ) ^ (0.4600:ℝ)) :=
  (claim_C1 (ι := Unit) (constGrid 100) (constGrid 1)).2.1 "Byram_HEAD"
    0.0775 0.4600 rfl (by decide)

/-- Claim C2: the Nelson flame-height sub-model uses coefficient `1/360`
for fire types 1 and 2, `0.0175` for fire type 3 and `0` otherwise; the raw
height is `a * intensity / windspeed` except where the windspeed is zero,
where it is the flame length; and the returned height is the flame length
wherever the raw height exceeds it and the raw height elsewhere, so the
output never exceeds the flame-length input. -/
theorem claim_C2 {ι : Type}
    (fire_type fire_intensity midflame_ws flame_length flame_tilt slope_angle : Grid ι)
    (slope_units : Option String) :
    ∃ g : Grid ι,
      getFlameHeight "Nelson" flame_length fire_type fire_intensity midflame_ws
          flame_tilt slope_angle slope_units = .ok g ∧
      ∀ i,
        (g i =
          (let a : ℝ := if fire_type i = 1 ∨ fire_type i = 2 then 1 / 360
            else if fire_type i = 3 then 0.0175 else 0
          let raw : ℝ := if midflame_ws i = 0 then flame_length i
            else a * fire_intensity i / midflame_ws i
          if raw > flame_length i then flame_length i else raw)) ∧
        g i ≤ flame_length i := by
  refine ⟨_, rfl, fun i => ?_⟩
  dsimp only [Con]
  constructor
  · split_ifs <;> rfl
  · split_ifs <;> first | exact le_refl _ | linarith

/-- Claim C4: whenever `getFlameTilt` returns a grid, that grid is the
clamped degree conversion of the vertical-relative tilt computed by the
selected sub-model — `tiltV_Standard` for `Standard`; the zero grid or
`tiltV_Finney` (depending on the flame-height-equals-flame-length test) on
the converted slope for `Finney`; `tiltV_Butler` on the unit-converted
windspeed for `Butler` — so the result is `degrees(tilt_v)` in every cell
where that computed tilt is nonnegative, `0` in every cell where it is
negative, and never negative. -/
theorem claim_C4 {ι : Type} (model : String)
    (flame_length flame_height slope_angle : Grid ι)
    (slope_units : Option String) (windspeed : Option (Grid ι))
    (windspeed_units : Option String) (canopy_ht : Option (Grid ι))
    (g : Grid ι)
    (h : getFlameTilt model flame_length flame_height slope_angle slope_units
      windspeed windspeed_units canopy_ht = .ok g) :
    ∃ tilt_v : Grid ι,
      ((model = "Standard" ∧
          tilt_v = tiltV_Standard flame_length flame_height) ∨
       (model = "Finney" ∧ ∃ slope_rad : Grid ι,
          slopeToRad slope_units slope_angle = .ok slope_rad ∧
          ((flame_height = flame_length ∧ tilt_v = fun _ => 0) ∨
           (flame_height ≠ flame_length ∧
             tilt_v = tiltV_Finney flame_length flame_height slope_rad))) ∨
       (model = "Butler" ∧ ∃ (ws c_ht : Grid ι) (ws_units : String),
          windspeed = some ws ∧ windspeed_units = some ws_units ∧
          canopy_ht = some c_ht ∧
          tilt_v = tiltV_Butler (fun i => butlerWsConvert ws_units (ws i)) c_ht)) ∧
      g = clampDeg tilt_v ∧
      (∀ i, 0 ≤ tilt_v i → g i = getDegrees (tilt_v i)) ∧
      (∀ i, tilt_v i < 0 → g i = 0) ∧
      (∀ i, 0 ≤ g i) := by
  unfold getFlameTilt at h
  cases htr : tiltCore model flame_length flame_height slope_angle slope_units
      windspeed windspeed_units canopy_ht with
  | error e => rw [htr] at h; exact absurd h (by simp)
  | ok tilt_v =>
    rw [htr] at h
    simp only [Except.ok.injEq] at h
    subst h
    refine ⟨tilt_v, ?_, rfl, ?_, ?_, fun i => clampDeg_nonneg tilt_v i⟩
    · by_cases hm1 : model = "Standard"
      · subst hm1
        replace htr : Except.ok (tiltV_Standard flame_length flame_height) =
            Except.ok tilt_v := htr
        injection htr with h2
        exact Or.inl ⟨rfl, h2.symm⟩
      · by_cases hm2 : model = "Finney"
        · subst hm2
          have h1 : tiltCore "Finney" flame_length flame_height slope_angle
              slope_units windspeed windspeed_units canopy_ht =
              (match slopeToRad slope_units slope_angle with
               | .error e => .error e
               | .ok sr2 =>
                 if flame_height = flame_length then .ok (fun _ => (0:ℝ))
                 else .ok (tiltV_Finney flame_length flame_height sr2)) := rfl
          rw [h1] at htr
          cases hsr : slopeToRad slope_units slope_angle with
          | error e => rw [hsr] at htr; exact absurd htr (by simp)
          | ok slope_rad =>
            rw [hsr] at htr
            replace htr : (if flame_height = flame_length
                then Except.ok (fun _ => (0:ℝ))
                else Except.ok (tiltV_Finney flame_length flame_height slope_rad)) =
                Except.ok tilt_v := htr
            by_cases hfl : flame_height = flame_length
            · rw [if_pos hfl] at htr
              injection htr with h2
              exact Or.inr (Or.inl ⟨rfl, slope_rad, rfl, Or.inl ⟨hfl, h2.symm⟩⟩)
            · rw [if_neg hfl] at htr
              injection htr with h2
              exact Or.inr (Or.inl ⟨rfl, slope_rad, rfl, Or.inr ⟨hfl, h2.symm⟩⟩)
        · by_cases hm3 : model = "Butler"
          · subst hm3
            cases windspeed with
            | none =>
              replace htr :
                  (Except.error FlameError.missingParameter :
                    Except FlameError (Grid ι)) = Except.ok tilt_v := htr
              exact absurd htr (by simp)
            | some w =>
              cases windspeed_units with
              | none =>
                replace htr :
                    (Except.error FlameError.missingParameter :
                      Except FlameError (Grid ι)) = Except.ok tilt_v := htr
                exact absurd htr (by simp)
              | some wsu =>
                cases canopy_ht with
                | none =>
                  replace htr :
                      (Except.error FlameError.missingParameter :
                        Except FlameError (Grid ι)) = Except.ok tilt_v := htr
                  exact absurd htr (by simp)
                | some c =>
                  replace htr : Except.ok (tiltV_Butler
                      (fun i => butlerWsConvert wsu (w i)) c) =
                      Except.ok tilt_v := htr
                  injection htr with h2
                  exact Or.inr (Or.inr ⟨rfl, w, c, wsu, rfl, rfl, rfl, h2.symm⟩)
          · have h2 : tiltCore model flame_length flame_height slope_angle
                slope_units windspeed windspeed_units canopy_ht =
                .error FlameError.invalidModel := by
              simp only [tiltCore, if_neg hm1, if_neg hm2, if_neg hm3]
            rw [h2] at htr
            exact absurd htr (by simp)
    · intro i hi
      rw [clampDeg_apply, if_pos hi]
    · intro i hi
      rw [clampDeg_apply, if_neg (not_le.mpr hi)]

/-- Claim C4 witness: the Standard sub-model with flame height equal to
flame length returns a grid, and its value is nonnegative. -/
theorem claim_C4_witness :
    0 ≤ clampDeg (ι := Unit) (tiltV_Standard (constGrid 1) (constGrid 1)) () := by
  obtain ⟨tv, hdisj, hg, hpos, hneg, hnn⟩ :=
    claim_C4 (ι := Unit) "Standard" (constGrid 1) (constGrid 1) (constGrid 0)
      none none none none _ rfl
  exact hnn ()

/-- Claim C3 counterexample: the flame-length registry does not have 27
keys. -/
theorem claim_C3_counterexample : (model_dict.map Prod.fst).length ≠ 27 := by
  decide

/-- Claim C3 (amended: the registry has 29 keys, not 27): an unrecognized
model name makes `getFlameLength`, `getFlameHeight` and `getFlameTilt`
raise the invalid-model error and produce no result, and a recognized name
never raises it. -/
theorem claim_C3 {ι : Type}
    (fire_intensity flame_depth : Grid ι) (params_only : Bool)
    (flame_length fire_type midflame_ws flame_tilt slope_angle flame_height : Grid ι)
    (slope_units : Option String) (windspeed : Option (Grid ι))
    (windspeed_units : Option String) (canopy_ht : Option (Grid ι)) :
    (∀ model, model_dict.lookup model = none →
      getFlameLength model fire_intensity flame_depth params_only =
        .error FlameError.invalidModel) ∧
    (∀ model ps, model_dict.lookup model = some ps →
      getFlameLength model fire_intensity flame_depth params_only ≠
        .error FlameError.invalidModel) ∧
    (∀ model, model ≠ "Nelson" → model ≠ "Finney" →
      getFlameHeight model flame_length fire_type fire_intensity midflame_ws
        flame_tilt slope_angle slope_units = .error FlameError.invalidModel) ∧
    (∀ model, model = "Nelson" ∨ model = "Finney" →
      getFlameHeight model flame_length fire_type fire_intensity midflame_ws
        flame_tilt slope_angle slope_units ≠ .error FlameError.invalidModel) ∧
    (∀ model, model ≠ "Standard" → model ≠ "Finney" → model ≠ "Butler" →
      getFlameTilt model flame_length flame_height slope_angle slope_units
        windspeed windspeed_units canopy_ht = .error FlameError.invalidModel) ∧
    (∀ model, model = "Standard" ∨ model = "Finney" ∨ model = "Butler" →
      getFlameTilt model flame_length flame_height slope_angle slope_units
        windspeed windspeed_units canopy_ht ≠ .error FlameError.invalidModel) := by
  refine ⟨?_, ?_, ?_, ?_, ?_, ?_⟩
  · intro model h
    simp only [getFlameLength, h]
  · intro model ps h
    simp only [getFlameLength, h]
    by_cases hp : params_only <;> by_cases hm : model = "Finney_HEAD" <;>
      simp [hp, hm]
  · intro model h1 h2
    simp only [getFlameHeight, if_neg h1, if_neg h2]
  · intro model hm
    rcases hm with hm | hm
    · subst hm
      simp [getFlameHeight]
    · subst hm
      cases hsr : slopeToRad slope_units slope_angle with
      | error e =>
        simp only [getFlameHeight, hsr]
        rw [slopeToRad_error hsr]
        simp
      | ok slope_rad => simp [getFlameHeight, hsr]
  · intro model h1 h2 h3
    simp only [getFlameTilt, tiltCore, if_neg h1, if_neg h2, if_neg h3]
  · intro model hm
    rcases hm with hm | hm | hm
    · subst hm
      simp [getFlameTilt, tiltCore]
    · subst hm
      cases hsr : slopeToRad slope_units slope_angle with
      | error e =>
        simp only [getFlameTilt, tiltCore, hsr]
        rw [slopeToRad_error hsr]
        simp
      | ok slope_rad =>
        simp only [getFlameTilt, tiltCore]
        rw [hsr]
        by_cases hfl : flame_height = flame_length <;> simp [hfl]
    · subst hm
      cases windspeed <;> cases windspeed_units <;> cases canopy_ht <;>
        simp [getFlameTilt, tiltCore]

/-- Claim C3 witness: an unrecognized name raises the invalid-model error
and the recognized name `Byram_HEAD` does not. -/
theorem claim_C3_witness :
    getFlameLength (ι := Unit) "Bogus" (constGrid 1) (constGrid 1) false =
        .error FlameError.invalidModel ∧
      getFlameLength (ι := Unit) "Byram_HEAD" (constGrid 1) (constGrid 1) false ≠
        .error FlameError.invalidModel :=
  ⟨(claim_C3 (ι := Unit) (constGrid 1) (constGrid 1) false (constGrid 1)
      (constGrid 1) (constGrid 1) (constGrid 1) (constGrid 1) (constGrid 1)
      none none none none).1 "Bogus" rfl,
   (claim_C3 (ι := Unit) (constGrid 1) (constGrid 1) false (constGrid 1)
      (constGrid 1) (constGrid 1) (constGrid 1) (constGrid 1) (constGrid 1)
      none none none none).2.1 "Byram_HEAD" [0.0775, 0.4600] rfl⟩

/-- Lines 54-64 of `getMidFlameWS` at a cell whose incoming canopy height
is zero: the crown ratio is 0, `f = 0`, and the logarithm sees the
substituted height `0.5 * 3.28084`. -/
lemma windReduction_zero_ht {ι : Type}
    (windspeed canopy_cover canopy_ht canopy_baseht : Grid ι) (i : ι)
    (h : canopy_ht i = 0) :
    windReduction windspeed canopy_cover canopy_ht canopy_baseht i =
      windspeed i * 1.83 /
        Real.log ((20 + 0.36 * (0.5 * 3.28084)) / (0.13 * (0.5 * 3.28084))) := by
  unfold windReduction
  norm_num [Con, h]

/-- Claim C6: the crown ratio is taken on the original canopy height and the
`0.5 * 3.28084` substitution happens only afterwards, so at a cell with zero
canopy height the output is
`windspeed * 1.83 / ln((20 + 0.36 h) / (0.13 h))` with `h = 0.5 * 3.28084`,
for every units tag (`windspeed` being the converted windspeed). -/
theorem claim_C6 {ι : Type} (units : String)
    (windspeed canopy_cover canopy_ht canopy_baseht : Grid ι) (i : ι)
    (h : canopy_ht i = 0) :
    getMidFlameWS windspeed canopy_cover canopy_ht canopy_baseht units i =
      wsConvert units (windspeed i) * 1.83 /
        Real.log ((20 + 0.36 * (0.5 * 3.28084)) / (0.13 * (0.5 * 3.28084))) := by
  by_cases h1 : units = "SI"
  · subst h1
    have hred : getMidFlameWS windspeed canopy_cover canopy_ht canopy_baseht "SI" =
        windReduction (fun j => windspeed j / (3.6 * 1.15)) canopy_cover
          (fun j => canopy_ht j * 3.28084) (fun j => canopy_baseht j * 3.28084) := rfl
    rw [hred, windReduction_zero_ht _ _ _ _ i (by rw [h, zero_mul])]
    simp [wsConvert]
  · by_cases h2 : units = "IMP"
    · subst h2
      have hred : getMidFlameWS windspeed canopy_cover canopy_ht canopy_baseht "IMP" =
          windReduction (fun j => windspeed j / 2.23694) canopy_cover
            canopy_ht canopy_baseht := rfl
      rw [hred, windReduction_zero_ht _ _ _ _ i h]
      simp [wsConvert]
    · simp only [getMidFlameWS, if_neg h1, if_neg h2]
      rw [windReduction_zero_ht _ _ _ _ i h]
      simp [wsConvert, h1, h2]

/-- Claim C6 witness: concrete evaluation at zero canopy height with the
`IMP` units tag. -/
theorem claim_C6_witness :
    getMidFlameWS (ι := Unit) (constGrid 10) (constGrid 40) (constGrid 0)
        (constGrid 1) "IMP" () =
      wsConvert "IMP" 10 * 1.83 /
        Real.log ((20 + 0.36 * (0.5 * 3.28084)) / (0.13 * (0.5 * 3.28084))) :=
  claim_C6 "IMP" (constGrid 10) (constGrid 40) (constGrid 0) (constGrid 1) () rfl

/-- Claim C7: a units tag other than `SI` and `IMP` makes `getMidFlameWS`
execute neither conversion branch: the result is the wind-reduction
computation applied to the raw, unconverted inputs, and no error is raised
(the function is total). -/
theorem claim_C7 {ι : Type} (units : String)
    (h1 : units ≠ "SI") (h2 : units ≠ "IMP")
    (windspeed canopy_cover canopy_ht canopy_baseht : Grid ι) :
    getMidFlameWS windspeed canopy_cover canopy_ht canopy_baseht units =
      windReduction windspeed canopy_cover canopy_ht canopy_baseht := by
  simp only [getMidFlameWS, if_neg h1, if_neg h2]

/-- Claim C7 witness: concrete evaluation with an unrecognized units tag. -/
theorem claim_C7_witness :
    getMidFlameWS (ι := Unit) (constGrid 10) (constGrid 40) (constGrid 5)
        (constGrid 1) "metric" =
      windReduction (constGrid 10) (constGrid 40) (constGrid 5) (constGrid 1) :=
  claim_C7 "metric" (by decide) (by decide) (constGrid 10) (constGrid 40)
    (constGrid 5) (constGrid 1)

/-- Claim C8: the Butler tilt sub-model raises the missing-parameter error
whenever any of `windspeed`, `windspeed_units`, `canopy_ht` is absent, and
returns a grid when all three are present. -/
theorem claim_C8 {ι : Type}
    (flame_length flame_height slope_angle : Grid ι)
    (slope_units : Option String)
    (windspeed canopy_ht : Grid ι) (windspeed_units : String)
    (ws_opt : Option (Grid ι)) (wu_opt : Option String)
    (ch_opt : Option (Grid ι)) :
    (getFlameTilt "Butler" flame_length flame_height slope_angle slope_units
      none wu_opt ch_opt = .error FlameError.missingParameter) ∧
    (getFlameTilt "Butler" flame_length flame_height slope_angle slope_units
      ws_opt none ch_opt = .error FlameError.missingParameter) ∧
    (getFlameTilt "Butler" flame_length flame_height slope_angle slope_units
      ws_opt wu_opt none = .error FlameError.missingParameter) ∧
    ∃ g, getFlameTilt "Butler" flame_length flame_height slope_angle
      slope_units (some windspeed) (some windspeed_units) (some canopy_ht) =
        .ok g := by
  refine ⟨rfl, ?_, ?_, ⟨_, rfl⟩⟩
  · cases ws_opt <;> rfl
  · cases ws_opt <;> cases wu_opt <;> rfl

/-- Claim C9: in both contexts requiring slope conversion (`getFlameHeight`
model `Finney` and `getFlameTilt` model `Finney`), a slope-units tag that is
neither `degrees` nor `percent` (including its absence) raises the
invalid-unit error; with `percent` the slope in radians is
`atan(slope / 100)` and with `degrees` it is `slope * pi / 180`. -/
theorem claim_C9 {ι : Type} (slope_units : Option String)
    (h1 : slope_units ≠ some "percent") (h2 : slope_units ≠ some "degrees")
    (slope_angle flame_length fire_type fire_intensity midflame_ws flame_tilt
      flame_height : Grid ι)
    (windspeed : Option (Grid ι)) (windspeed_units : Option String)
    (canopy_ht : Option (Grid ι)) :
    (slopeToRad slope_units slope_angle = .error FlameError.invalidUnit) ∧
    (getFlameHeight "Finney" flame_length fire_type fire_intensity midflame_ws
      flame_tilt slope_angle slope_units = .error FlameError.invalidUnit) ∧
    (getFlameTilt "Finney" flame_length flame_height slope_angle slope_units
      windspeed windspeed_units canopy_ht = .error FlameError.invalidUnit) ∧
    (slopeToRad (some "percent") slope_angle =
      .ok (fun i => Real.arctan (slope_angle i / 100))) ∧
    (slopeToRad (some "degrees") slope_angle =
      .ok (fun i => slope_angle i * Real.pi / 180)) := by
  refine ⟨slopeToRad_invalid _ _ h1 h2, ?_, ?_, rfl, rfl⟩
  · simp [getFlameHeight, slopeToRad_invalid _ _ h1 h2]
  · simp [getFlameTilt, tiltCore, slopeToRad_invalid _ _ h1 h2]

/-- Claim C9 witness: concrete evaluation with the unrecognized slope-units
tag `radians`. -/
theorem claim_C9_witness :
    getFlameHeight (ι := Unit) "Finney" (constGrid 1) (constGrid 1)
        (constGrid 1) (constGrid 1) (constGrid 1) (constGrid 1)
        (some "radians") = .error FlameError.invalidUnit ∧
      slopeToRad (ι := Unit) (some "percent") (constGrid 1) =
        .ok (fun i => Real.arctan (constGrid 1 i / 100)) :=
  ⟨(claim_C9 (ι := Unit) (some "radians") (by decide) (by decide) (constGrid 1)
      (constGrid 1) (constGrid 1) (constGrid 1) (constGrid 1) (constGrid 1)
      (constGrid 1) none none none).2.1,
   (claim_C9 (ι := Unit) (some "radians") (by decide) (by decide) (constGrid 1)
      (constGrid 1) (constGrid 1) (constGrid 1) (constGrid 1) (constGrid 1)
      (constGrid 1) none none none).2.2.2.1⟩

/-- Claim C10: with all three Butler parameters present, a windspeed-units
tag other than `kph` and `mph` raises no error and leaves the windspeed
unconverted, so any unrecognized tag behaves exactly like `mps` and the
tilt is computed from the raw windspeed. -/
theorem claim_C10 {ι : Type} (windspeed_units : String)
    (h1 : windspeed_units ≠ "kph") (h2 : windspeed_units ≠ "mph")
    (flame_length flame_height slope_angle : Grid ι)
    (slope_units : Option String) (windspeed canopy_ht : Grid ι) :
    getFlameTilt "Butler" flame_length flame_height slope_angle slope_units
        (some windspeed) (some windspeed_units) (some canopy_ht) =
      getFlameTilt "Butler" flame_length flame_height slope_angle slope_units
        (some windspeed) (some "mps") (some canopy_ht) ∧
    getFlameTilt "Butler" flame_length flame_height slope_angle slope_units
        (some windspeed) (some windspeed_units) (some canopy_ht) =
      .ok (clampDeg (tiltV_Butler windspeed canopy_ht)) := by
  have hconv : (fun i => butlerWsConvert windspeed_units (windspeed i)) = windspeed := by
    funext i
    simp [butlerWsConvert, h1, h2]
  have hmps : (fun i => butlerWsConvert "mps" (windspeed i)) = windspeed := by
    funext i
    simp [butlerWsConvert]
  constructor
  · simp only [getFlameTilt, tiltCore, hconv, hmps]
  · simp only [getFlameTilt, tiltCore, hconv]
    rfl

/-- Claim C10 witness: concrete evaluation with the unrecognized
windspeed-units tag `banana`. -/
theorem claim_C10_witness :
    getFlameTilt (ι := Unit) "Butler" (constGrid 1) (constGrid 1) (constGrid 0)
        none (some (constGrid 10)) (some "banana") (some (constGrid 10)) =
      .ok (clampDeg (tiltV_Butler (constGrid 10) (constGrid 10))) :=
  (claim_C10 "banana" (by decide) (by decide) (constGrid 1) (constGrid 1)
    (constGrid 0) none (constGrid 10) (constGrid 10)).2

/-- Reduction of the Finney flame-tilt sub-model once the slope conversion
succeeds: the result is the clamped zero grid when flame height equals flame
length and the clamped Finney tilt otherwise. -/
lemma tilt_Finney_reduce {ι : Type} (fl fh sa : Grid ι) (su : Option String)
    (ws : Option (Grid ι)) (wu : Option String) (ch : Option (Grid ι))
    (sr : Grid ι) (hsr : slopeToRad su sa = .ok sr) :
    getFlameTilt "Finney" fl fh sa su ws wu ch =
      if fh = fl then .ok (clampDeg (fun _ => 0))
      else .ok (clampDeg (tiltV_Finney fl fh sr)) := by
  unfold getFlameTilt
  have h1 : tiltCore "Finney" fl fh sa su ws wu ch =
      (match slopeToRad su sa with
       | .error e => .error e
       | .ok sr2 =>
         if fh = fl then .ok (fun _ => (0:ℝ))
         else .ok (tiltV_Finney fl fh sr2)) := rfl
  rw [h1, hsr]
  show ((match (if fh = fl then Except.ok (fun _ => (0:ℝ))
      else Except.ok (tiltV_Finney fl fh sr)) with
    | Except.error e => Except.error e
    | Except.ok tilt_v => Except.ok (clampDeg tilt_v)) : Except FlameError (Grid ι)) = _
  by_cases hfl : fh = fl
  · rw [if_pos hfl, if_pos hfl]
  · rw [if_neg hfl, if_neg hfl]

/-- Claim C5: every function of the core treats scalar and grid inputs
consistently: on constant grids the per-cell result at any cell equals the
result of the same call on one-cell (scalar) inputs; in particular this
holds for `getFlameTilt` with model `Finney`, whose flame-height-equals-
flame-length test is a whole-grid comparison. -/
theorem claim_C5 {ι : Type} (i : ι) :
    (∀ ws cc ch cbh u,
      getMidFlameWS (constGrid ws) (constGrid cc) (constGrid ch) (constGrid cbh) u i =
        getMidFlameWS (ι := Unit) (constGrid ws) (constGrid cc) (constGrid ch) (constGrid cbh) u ()) ∧
    (∀ model fi fd p,
      (getFlameLength model (constGrid fi) (constGrid fd) p).map (Sum.map id fun g => g i) =
        (getFlameLength (ι := Unit) model (constGrid fi) (constGrid fd) p).map (Sum.map id fun g => g ())) ∧
    (∀ model fl ft fi ws t sa su,
      (getFlameHeight model (constGrid fl) (constGrid ft) (constGrid fi) (constGrid ws)
          (constGrid t) (constGrid sa) su).map (fun g => g i) =
        (getFlameHeight (ι := Unit) model (constGrid fl) (constGrid ft) (constGrid fi)
          (constGrid ws) (constGrid t) (constGrid sa) su).map (fun g => g ())) ∧
    (∀ model fl fh sa su (ws : Option ℝ) wu (ch : Option ℝ),
      (getFlameTilt model (constGrid fl) (constGrid fh) (constGrid sa) su
          (ws.map constGrid) wu (ch.map constGrid)).map (fun g => g i) =
        (getFlameTilt (ι := Unit) model (constGrid fl) (constGrid fh) (constGrid sa) su
          (ws.map constGrid) wu (ch.map constGrid)).map (fun g => g ())) ∧
    (∀ ros fc mw u,
      getFlameResidenceTime (constGrid ros) (constGrid fc) (constGrid mw) u i =
        getFlameResidenceTime (ι := Unit) (constGrid ros) (constGrid fc) (constGrid mw) u ()) ∧
    (∀ ros rt,
      getFlameDepth (constGrid ros) (constGrid rt) i =
        getFlameDepth (ι := Unit) (constGrid ros) (constGrid rt) ()) := by
  refine ⟨?_, ?_, ?_, ?_, ?_, ?_⟩
  · intro ws cc ch cbh u
    by_cases h1 : u = "SI"
    · subst h1; rfl
    · by_cases h2 : u = "IMP"
      · subst h2; rfl
      · simp only [getMidFlameWS, if_neg h1, if_neg h2]
        rfl
  · intro model fi fd p
    cases hl : model_dict.lookup model with
    | none => simp only [getFlameLength, hl]; rfl
    | some ps =>
      cases p
      · by_cases hm : model = "Finney_HEAD"
        · subst hm; rfl
        · simp only [getFlameLength, hl, Bool.false_eq_true, if_false, if_neg hm]
          rfl
      · simp only [getFlameLength, hl]
        rfl
  · intro model fl ft fi ws t sa su
    by_cases hm1 : model = "Nelson"
    · subst hm1; rfl
    · by_cases hm2 : model = "Finney"
      · subst hm2
        by_cases hsu1 : su = some "percent"
        · subst hsu1; rfl
        · by_cases hsu2 : su = some "degrees"
          · subst hsu2; rfl
          · simp only [getFlameHeight, slopeToRad_invalid _ _ hsu1 hsu2]
            rfl
      · simp only [getFlameHeight, if_neg hm1, if_neg hm2]
        rfl
  · intro model fl fh sa su ws wu ch
    by_cases hm1 : model = "Standard"
    · subst hm1; rfl
    · by_cases hm2 : model = "Finney"
      · subst hm2
        by_cases hsu1 : su = some "percent"
        · subst hsu1
          rw [tilt_Finney_reduce (ι := ι) (constGrid fl) (constGrid fh) (constGrid sa)
              (some "percent") (ws.map constGrid) wu (ch.map constGrid)
              (fun j => Real.arctan (constGrid sa j / 100)) rfl,
            tilt_Finney_reduce (ι := Unit) (constGrid fl) (constGrid fh) (constGrid sa)
              (some "percent") (ws.map constGrid) wu (ch.map constGrid)
              (fun j => Real.arctan (constGrid sa j / 100)) rfl]
          by_cases hfl : fh = fl
          · rw [if_pos (show (constGrid fh : Grid ι) = constGrid fl by rw [hfl]),
              if_pos (show (constGrid fh : Grid Unit) = constGrid fl by rw [hfl])]
            rfl
          · rw [if_neg (fun hcg => hfl (congrFun hcg i)),
              if_neg (fun hcg => hfl (congrFun hcg ()))]
            rfl
        · by_cases hsu2 : su = some "degrees"
          · subst hsu2
            rw [tilt_Finney_reduce (ι := ι) (constGrid fl) (constGrid fh) (constGrid sa)
                (some "degrees") (ws.map constGrid) wu (ch.map constGrid)
                (fun j => getRadians (constGrid sa j)) rfl,
              tilt_Finney_reduce (ι := Unit) (constGrid fl) (constGrid fh) (constGrid sa)
                (some "degrees") (ws.map constGrid) wu (ch.map constGrid)
                (fun j => getRadians (constGrid sa j)) rfl]
            by_cases hfl : fh = fl
            · rw [if_pos (show (constGrid fh : Grid ι) = constGrid fl by rw [hfl]),
                if_pos (show (constGrid fh : Grid Unit) = constGrid fl by rw [hfl])]
              rfl
            · rw [if_neg (fun hcg => hfl (congrFun hcg i)),
                if_neg (fun hcg => hfl (congrFun hcg ()))]
              rfl
          · simp only [getFlameTilt, tiltCore, slopeToRad_invalid _ _ hsu1 hsu2]
            rfl
      · by_cases hm3 : model = "Butler"
        · subst hm3
          cases ws <;> cases wu <;> cases ch <;> rfl
        · simp only [getFlameTilt, tiltCore, if_neg hm1, if_neg hm2, if_neg hm3]
          rfl
  · intro ros fc mw u
    by_cases h : u = "min"
    · subst h; rfl
    · simp only [getFlameResidenceTime, if_neg h]
      rfl
  · intro ros rt
    rfl


end Flame
